import Mathlib

/-!
Verification of the push-up detector in src/script.js.

The file embeds the calibration and repetition-detection core of the
script as Lean definitions and proves the frozen claims about it.
Coordinates, confidences and timestamps are modelled as rationals
(JavaScript numbers used only through arithmetic and comparisons);
the angle computation, which goes through arccos, lands in the reals.
-/

/-- A raw keypoint as delivered by the pose source: coordinates plus an
optional confidence (script.js getKey coalesces a possibly missing score
or probability field, so we model the input confidence as optional). -/
structure RawKP where
  x : ℚ
  y : ℚ
  score : Option ℚ
deriving DecidableEq

/-- A pose maps keypoint indices to raw keypoints; the detector uses
indices 5..12 (shoulders, elbows, wrists, hips). -/
abbrev Pose := ℕ → RawKP

/-- A keypoint with the confidence defaulting already applied. -/
structure KP where
  x : ℚ
  y : ℚ
  score : ℚ
deriving DecidableEq

/-- getKey (script.js line 164): keypoint access with a missing
confidence defaulting to 0. -/
def getKey (pose : Pose) (idx : ℕ) : KP :=
  let k := pose idx
  ⟨k.x, k.y, k.score.getD 0⟩

/-- getMidpointY (script.js line 169): mean of two keypoint heights, or
none when either confidence is below 0.35. -/
def getMidpointY (pose : Pose) (aIdx bIdx : ℕ) : Option ℚ :=
  let a := getKey pose aIdx
  let b := getKey pose bIdx
  if a.score < 0.35 ∨ b.score < 0.35 then none
  else some ((a.y + b.y) / 2)

/-- angleDeg (script.js line 176): angle at vertex b between the rays
b to a and b to c, in degrees.  The source tests Math.hypot(abx, aby)
for zero; hypot is zero exactly when the sum of squares is zero, and the
zero test is stated here on the rational sum of squares so that it stays
decidable.  The cosine is clamped to the interval from -1 to 1 before
arccos, exactly as in the source. -/
noncomputable def angleDeg (a b c : KP) : ℝ :=
  let abx := a.x - b.x
  let aby := a.y - b.y
  let cbx := c.x - b.x
  let cby := c.y - b.y
  if abx ^ 2 + aby ^ 2 = 0 ∨ cbx ^ 2 + cby ^ 2 = 0 then 180
  else
    Real.arccos (max (-1) (min 1
      (((abx * cbx + aby * cby : ℚ) : ℝ) /
        (Real.sqrt ((abx ^ 2 + aby ^ 2 : ℚ) : ℝ) *
         Real.sqrt ((cbx ^ 2 + cby ^ 2 : ℚ) : ℝ))))) * 180 / Real.pi

/-- arccos of anything, rescaled from radians to degrees, lies between
0 and 180. -/
lemma arccos_deg_bounds (x : ℝ) :
    0 ≤ Real.arccos x * 180 / Real.pi ∧ Real.arccos x * 180 / Real.pi ≤ 180 := by
  have hpi : 0 < Real.pi := Real.pi_pos
  constructor
  · exact div_nonneg (mul_nonneg (Real.arccos_nonneg x) (by norm_num)) hpi.le
  · rw [div_le_iff₀ hpi]
    nlinarith [Real.arccos_le_pi x]

/-- C5: angleDeg returns exactly 180 when either ray from the vertex has
zero length, and in every case (in particular in the nondegenerate one)
its value lies in the interval from 0 to 180, since the cosine is
clamped before arccos. -/
theorem c5_angleDeg_range (a b c : KP) :
    (((a.x - b.x) ^ 2 + (a.y - b.y) ^ 2 = 0 ∨
      (c.x - b.x) ^ 2 + (c.y - b.y) ^ 2 = 0) → angleDeg a b c = 180) ∧
    (0 ≤ angleDeg a b c ∧ angleDeg a b c ≤ 180) := by
  constructor
  · intro h
    simp only [angleDeg]
    rw [if_pos h]
  · simp only [angleDeg]
    by_cases h : (a.x - b.x) ^ 2 + (a.y - b.y) ^ 2 = 0 ∨
        (c.x - b.x) ^ 2 + (c.y - b.y) ^ 2 = 0
    · rw [if_pos h]; norm_num
    · rw [if_neg h]
      exact arccos_deg_bounds _

/-- Witness for C5 at a degenerate input: the ray from the vertex to the
first point has zero length, so the angle is 180. -/
theorem c5_angleDeg_range_witness :
    angleDeg ⟨0, 0, 1⟩ ⟨0, 0, 1⟩ ⟨1, 0, 1⟩ = 180 :=
  (c5_angleDeg_range ⟨0, 0, 1⟩ ⟨0, 0, 1⟩ ⟨1, 0, 1⟩).1 (Or.inl (by norm_num))

/-- The two positions of the repetition state machine. -/
inductive Pos
  | up
  | down
deriving DecidableEq

/-- The mutable detection-session variables of script.js: lastPosition,
lastRepTime, lastDownTime (lines 26-28) and the push counter
STATE.detector.pushCount (line 19). -/
structure DetState where
  lastPosition : Pos
  lastRepTime : ℚ
  lastDownTime : ℚ
  pushCount : ℕ
deriving DecidableEq

/-- The fixed set of per-frame feedback messages written to
feedbackText by evaluateForPushUp (lines 263-276). -/
inductive Feedback
  | repCounted (total : ℕ)
  | holdLonger
  | tooFast
  | adjustPosture
  | descentHold
  | returnTop
deriving DecidableEq

/-- MIN_REP_INTERVAL_MS (script.js line 31). -/
def MIN_REP_INTERVAL_MS : ℚ := 800

/-- MIN_DOWN_HOLD_MS (script.js line 32). -/
def MIN_DOWN_HOLD_MS : ℚ := 250

/-- DOWN_ANGLE_THRESHOLD (script.js line 33). -/
def DOWN_ANGLE_THRESHOLD : ℚ := 90

/-- UP_ANGLE_THRESHOLD (script.js line 34). -/
def UP_ANGLE_THRESHOLD : ℚ := 160

/-- The repetition state machine of evaluateForPushUp (script.js lines
251-277), as a function of the two detection flags, the frame timestamp
and the session state.  The second component is the feedback written for
the frame; it is none exactly when the source writes nothing (the final
branch of the timing-gate dispatch, which is in fact unreachable). -/
def stepRep (downDetected upDetected : Bool) (now : ℚ) (st : DetState) :
    DetState × Option Feedback :=
  let st1 := if downDetected = true ∧ st.lastPosition = Pos.up then
    { st with lastPosition := Pos.down, lastDownTime := now } else st
  if st1.lastPosition = Pos.down ∧ upDetected = true then
    let held := now - st1.lastDownTime
    let sinceLastRep := now - st1.lastRepTime
    if held ≥ MIN_DOWN_HOLD_MS ∧ sinceLastRep ≥ MIN_REP_INTERVAL_MS then
      ({ st1 with
          pushCount := st1.pushCount + 1,
          lastRepTime := now,
          lastPosition := Pos.up },
        some (Feedback.repCounted (st1.pushCount + 1)))
    else if held < MIN_DOWN_HOLD_MS then (st1, some Feedback.holdLonger)
    else if sinceLastRep < MIN_REP_INTERVAL_MS then (st1, some Feedback.tooFast)
    else (st1, none)
  else if downDetected = false ∧ upDetected = false then
    (st1, some Feedback.adjustPosture)
  else if downDetected = true then (st1, some Feedback.descentHold)
  else (st1, some Feedback.returnTop)

/-- The per-frame evaluation from the Signals interface downward
(script.js lines 248-277): the two detection predicates computed from
the elbow-angle average, the signed shoulder drop and the wrist check,
against the calibrated drop threshold, feeding the state machine. -/
def stepFromSignals (elbowAvg shoulderDrop : ℚ) (wristsUnder : Bool)
    (dropThreshold now : ℚ) (st : DetState) : DetState × Option Feedback :=
  let downDetected := decide (elbowAvg < DOWN_ANGLE_THRESHOLD) &&
    (decide (shoulderDrop > dropThreshold * 0.85) && wristsUnder)
  let upDetected := decide (elbowAvg > UP_ANGLE_THRESHOLD) &&
    decide (shoulderDrop < dropThreshold * 0.45)
  stepRep downDetected upDetected now st

/-- C1: with the machine in Down and upDetected true, the counter is
incremented exactly when held is at least 250 ms and sinceLastRep at
least 800 ms; and on every frame the counter either stays or grows by
exactly one, the latter only on the Down-to-Up path (upDetected true,
final position Up, lastRepTime stamped). -/
theorem c1_count_increment_gates (d u : Bool) (now : ℚ) (st : DetState) :
    (st.lastPosition = Pos.down → u = true →
      ((stepRep d u now st).1.pushCount = st.pushCount + 1 ↔
        now - st.lastDownTime ≥ MIN_DOWN_HOLD_MS ∧
        now - st.lastRepTime ≥ MIN_REP_INTERVAL_MS)) ∧
    ((stepRep d u now st).1.pushCount = st.pushCount ∨
      ((stepRep d u now st).1.pushCount = st.pushCount + 1 ∧ u = true ∧
        (stepRep d u now st).1.lastPosition = Pos.up ∧
        (stepRep d u now st).1.lastRepTime = now)) := by
  obtain ⟨pos, lrt, ldt, pc⟩ := st
  unfold stepRep
  cases pos <;> cases d <;> cases u <;> simp <;> split_ifs <;> simp_all

/-- Witness for C1: in Down with upDetected at held = 249 ms the gate
equivalence holds, and the counter indeed does not move. -/
theorem c1_count_increment_gates_witness :
    ((stepRep false true 249 ⟨Pos.down, -1000, 0, 5⟩).1.pushCount = 5 + 1 ↔
      (249 : ℚ) - 0 ≥ MIN_DOWN_HOLD_MS ∧
      (249 : ℚ) - (-1000) ≥ MIN_REP_INTERVAL_MS) ∧
    (stepRep false true 249 ⟨Pos.down, -1000, 0, 5⟩).1.pushCount = 5 :=
  ⟨(c1_count_increment_gates false true 249 ⟨Pos.down, -1000, 0, 5⟩).1 rfl rfl,
    by norm_num [stepRep, MIN_DOWN_HOLD_MS, MIN_REP_INTERVAL_MS]⟩

/-- C2 counterexample: running the spec scenario literally (baseline
drop threshold 36; frame A at t = 0 with elbow 70, drop 35, wrists
under; frame B at t = 300 with elbow 170, drop 10) from the fresh state
does transition to Down on frame A, but frame B leaves the count at 0
and the machine in Down with the too-fast feedback, because
sinceLastRep = 300 - 0 = 300 is below the 800 ms gate: the claim that
the count becomes 1 and the state returns to Up is false. -/
theorem c2_scenario_counterexample :
    (stepFromSignals 70 35 true 36 0 ⟨Pos.up, 0, 0, 0⟩).1.lastPosition
        = Pos.down ∧
    (stepFromSignals 170 10 false 36 300
        (stepFromSignals 70 35 true 36 0 ⟨Pos.up, 0, 0, 0⟩).1).1.pushCount = 0 ∧
    (stepFromSignals 170 10 false 36 300
        (stepFromSignals 70 35 true 36 0 ⟨Pos.up, 0, 0, 0⟩).1).1.lastPosition
        = Pos.down ∧
    (stepFromSignals 170 10 false 36 300
        (stepFromSignals 70 35 true 36 0 ⟨Pos.up, 0, 0, 0⟩).1).2
        = some Feedback.tooFast := by
  norm_num [stepFromSignals, stepRep, MIN_DOWN_HOLD_MS, MIN_REP_INTERVAL_MS,
    DOWN_ANGLE_THRESHOLD, UP_ANGLE_THRESHOLD]

/-- C2 amended: frame A at t = 0 transitions Up to Down; frame B at
t = 300 passes the hold gate but fails the 800 ms interval gate, since
lastRepTimestamp is initialised to 0, so the count stays 0 and the
state stays Down; the same pair of frames shifted to t = 800 and
t = 1100 makes the count 1 and returns the state to Up. -/
theorem c2_scenario_amended :
    (stepFromSignals 70 35 true 36 0 ⟨Pos.up, 0, 0, 0⟩).1.lastPosition
        = Pos.down ∧
    (stepFromSignals 170 10 false 36 300
        (stepFromSignals 70 35 true 36 0 ⟨Pos.up, 0, 0, 0⟩).1).1.pushCount = 0 ∧
    (stepFromSignals 170 10 false 36 300
        (stepFromSignals 70 35 true 36 0 ⟨Pos.up, 0, 0, 0⟩).1).1.lastPosition
        = Pos.down ∧
    (stepFromSignals 170 10 false 36 1100
        (stepFromSignals 70 35 true 36 800 ⟨Pos.up, 0, 0, 0⟩).1).1.pushCount = 1 ∧
    (stepFromSignals 170 10 false 36 1100
        (stepFromSignals 70 35 true 36 800 ⟨Pos.up, 0, 0, 0⟩).1).1.lastPosition
        = Pos.up := by
  norm_num [stepFromSignals, stepRep, MIN_DOWN_HOLD_MS, MIN_REP_INTERVAL_MS,
    DOWN_ANGLE_THRESHOLD, UP_ANGLE_THRESHOLD]

/-- C8: a frame arriving while the machine is already in Down never
changes lastDownTime, whatever the detection flags; and on any frame at
all, lastDownTime either stays or is stamped to the frame time, the
latter only when the machine was in Up and downDetected fired. -/
theorem c8_down_no_retrigger (d u : Bool) (now : ℚ) (st : DetState) :
    (st.lastPosition = Pos.down →
      (stepRep d u now st).1.lastDownTime = st.lastDownTime) ∧
    ((stepRep d u now st).1.lastDownTime = st.lastDownTime ∨
      (st.lastPosition = Pos.up ∧ d = true ∧
        (stepRep d u now st).1.lastDownTime = now)) := by
  obtain ⟨pos, lrt, ldt, pc⟩ := st
  unfold stepRep
  cases pos <;> cases d <;> cases u <;> simp <;> split_ifs <;> simp_all

/-- Witness for C8: a downDetected frame while already in Down keeps
the recorded descent timestamp. -/
theorem c8_down_no_retrigger_witness :
    (stepRep true false 100 ⟨Pos.down, 0, 50, 2⟩).1.lastDownTime = 50 :=
  (c8_down_no_retrigger true false 100 ⟨Pos.down, 0, 50, 2⟩).1 rfl

/-- The calibration output (script.js lines 159-160). -/
structure Baseline where
  shoulderY : ℚ
  hipY : ℚ
  shoulderWidth : ℚ
  bodyHeight : ℚ
  shoulderDropThreshold : ℚ
deriving DecidableEq

/-- shoulderMidY of the current frame (script.js line 237). -/
def shoulderMidYOf (pose : Pose) : ℚ :=
  ((getKey pose 5).y + (getKey pose 6).y) / 2

/-- shoulderWidth of the current frame (script.js line 238), unclamped. -/
def shoulderWidthOf (pose : Pose) : ℚ :=
  |(getKey pose 5).x - (getKey pose 6).x|

/-- elbowAvg (script.js lines 239-241): mean of the two per-side
shoulder-elbow-wrist angles. -/
noncomputable def elbowAvgOf (pose : Pose) : ℝ :=
  (angleDeg (getKey pose 5) (getKey pose 7) (getKey pose 9) +
   angleDeg (getKey pose 6) (getKey pose 8) (getKey pose 10)) / 2

/-- wristsUnder (script.js lines 244-245). -/
def wristsUnderOf (pose : Pose) : Bool :=
  decide ((getKey pose 9).score ≥ 0.25 ∧
    |(getKey pose 9).x - (getKey pose 5).x| < shoulderWidthOf pose * 0.9) &&
  decide ((getKey pose 10).score ≥ 0.25 ∧
    |(getKey pose 10).x - (getKey pose 6).x| < shoulderWidthOf pose * 0.9)

/-- shoulderDrop (script.js line 247).  evaluateForPushUp is only ever
reached with a calibrated baseline (runDetectionLoop line 287 guards on
it), so the baseline is a plain parameter here and the null fallback of
the source line does not arise. -/
def shoulderDropOf (pose : Pose) (b : Baseline) : ℚ :=
  shoulderMidYOf pose - b.shoulderY

/-- downDetected (script.js line 248). -/
def downDetectedOf (pose : Pose) (b : Baseline) : Prop :=
  elbowAvgOf pose < (DOWN_ANGLE_THRESHOLD : ℝ) ∧
  shoulderDropOf pose b > b.shoulderDropThreshold * 0.85 ∧
  wristsUnderOf pose = true

/-- upDetected (script.js line 249). -/
def upDetectedOf (pose : Pose) (b : Baseline) : Prop :=
  elbowAvgOf pose > (UP_ANGLE_THRESHOLD : ℝ) ∧
  shoulderDropOf pose b < b.shoulderDropThreshold * 0.45

/-- evaluateForPushUp (script.js lines 228-278): none when either
shoulder confidence is below 0.35 (the early return of line 235, which
skips the whole state machine and every feedback write); otherwise the
detection predicates drive the state machine. -/
noncomputable def evaluateForPushUp (pose : Pose) (b : Baseline) (now : ℚ)
    (st : DetState) : Option (DetState × Option Feedback) :=
  if (getKey pose 5).score < 0.35 ∨ (getKey pose 6).score < 0.35 then none
  else
    some (stepRep
      (@decide (downDetectedOf pose b) (Classical.propDecidable _))
      (@decide (upDetectedOf pose b) (Classical.propDecidable _)) now st)

/-- C3: on a usable frame the detection predicates are exactly the spec
formulas: downDetected is elbow angle below 90, drop above 0.85 times
the threshold, wrists under; upDetected is elbow angle above 160 and
drop below 0.45 times the threshold; wristsUnder demands, on both
sides, wrist confidence at least 0.25 and horizontal wrist-to-shoulder
distance below 0.9 times the current shoulder width; and such a frame
is indeed evaluated (the evaluation is not absent). -/
theorem c3_detection_predicates (pose : Pose) (b : Baseline)
    (h5 : (getKey pose 5).score ≥ 0.35) (h6 : (getKey pose 6).score ≥ 0.35) :
    (downDetectedOf pose b ↔
      (elbowAvgOf pose < 90 ∧
        shoulderDropOf pose b > 0.85 * b.shoulderDropThreshold ∧
        wristsUnderOf pose = true)) ∧
    (upDetectedOf pose b ↔
      (elbowAvgOf pose > 160 ∧
        shoulderDropOf pose b < 0.45 * b.shoulderDropThreshold)) ∧
    (wristsUnderOf pose = true ↔
      (((getKey pose 9).score ≥ 0.25 ∧
         |(getKey pose 9).x - (getKey pose 5).x| < 0.9 * shoulderWidthOf pose) ∧
       ((getKey pose 10).score ≥ 0.25 ∧
         |(getKey pose 10).x - (getKey pose 6).x| < 0.9 * shoulderWidthOf pose))) ∧
    (∀ now st, (evaluateForPushUp pose b now st).isSome = true) := by
  refine ⟨?_, ?_, ?_, ?_⟩
  · unfold downDetectedOf DOWN_ANGLE_THRESHOLD
    constructor
    · rintro ⟨h1, h2, h3⟩
      exact ⟨by exact_mod_cast h1, by linarith, h3⟩
    · rintro ⟨h1, h2, h3⟩
      exact ⟨by exact_mod_cast h1, by linarith, h3⟩
  · unfold upDetectedOf UP_ANGLE_THRESHOLD
    constructor
    · rintro ⟨h1, h2⟩
      exact ⟨by exact_mod_cast h1, by linarith⟩
    · rintro ⟨h1, h2⟩
      exact ⟨by exact_mod_cast h1, by linarith⟩
  · unfold wristsUnderOf
    simp only [Bool.and_eq_true, decide_eq_true_eq]
    constructor
    · rintro ⟨⟨a1, a2⟩, b1, b2⟩
      exact ⟨⟨a1, by linarith⟩, ⟨b1, by linarith⟩⟩
    · rintro ⟨⟨a1, a2⟩, b1, b2⟩
      exact ⟨⟨a1, by linarith⟩, ⟨b1, by linarith⟩⟩
  · intro now st
    unfold evaluateForPushUp
    rw [if_neg]
    · rfl
    · rintro (h | h) <;> linarith

/-- A fully confident straight-bodied test pose for the C3 witness. -/
def c3pose : Pose := fun i =>
  if i = 5 then ⟨0, 100, some 1⟩
  else if i = 6 then ⟨100, 100, some 1⟩
  else if i = 9 then ⟨10, 180, some 1⟩
  else if i = 10 then ⟨90, 180, some 1⟩
  else ⟨50, 150, some 1⟩

/-- Witness for C3 at a concrete confident pose: the wrist formula
instance and the non-absence of the evaluation. -/
theorem c3_detection_predicates_witness :
    ((wristsUnderOf c3pose = true ↔
      (((getKey c3pose 9).score ≥ 0.25 ∧
         |(getKey c3pose 9).x - (getKey c3pose 5).x|
           < 0.9 * shoulderWidthOf c3pose) ∧
       ((getKey c3pose 10).score ≥ 0.25 ∧
         |(getKey c3pose 10).x - (getKey c3pose 6).x|
           < 0.9 * shoulderWidthOf c3pose)))) ∧
    (evaluateForPushUp c3pose ⟨100, 200, 100, 100, 18⟩ 0
        ⟨Pos.up, 0, 0, 0⟩).isSome = true :=
  ⟨(c3_detection_predicates c3pose ⟨100, 200, 100, 100, 18⟩
      (by norm_num [getKey, c3pose]) (by norm_num [getKey, c3pose])).2.2.1,
   (c3_detection_predicates c3pose ⟨100, 200, 100, 100, 18⟩
      (by norm_num [getKey, c3pose]) (by norm_num [getKey, c3pose])).2.2.2 0 _⟩

/-- C6: a midpoint query with either confidence below 0.35 is absent,
and a frame with either shoulder confidence below 0.35 makes the whole
evaluation absent, so no state change, no count change and no feedback
write happens for it. -/
theorem c6_low_confidence_skips (pose : Pose) (i j : ℕ) (b : Baseline)
    (now : ℚ) (st : DetState) :
    (((getKey pose i).score < 0.35 ∨ (getKey pose j).score < 0.35) →
      getMidpointY pose i j = none) ∧
    (((getKey pose 5).score < 0.35 ∨ (getKey pose 6).score < 0.35) →
      evaluateForPushUp pose b now st = none) := by
  constructor
  · intro h
    unfold getMidpointY
    rw [if_pos h]
  · intro h
    unfold evaluateForPushUp
    rw [if_pos h]

/-- A pose whose every keypoint has confidence 0.1, for the C6 witness. -/
def c6pose : Pose := fun _ => ⟨50, 50, some (1 / 10)⟩

/-- Witness for C6: at the all-low-confidence pose both the midpoint
and the frame evaluation are absent. -/
theorem c6_low_confidence_skips_witness :
    getMidpointY c6pose 5 6 = none ∧
    evaluateForPushUp c6pose ⟨100, 200, 100, 100, 18⟩ 0
      ⟨Pos.up, 0, 0, 0⟩ = none :=
  ⟨(c6_low_confidence_skips c6pose 5 6 ⟨100, 200, 100, 100, 18⟩ 0
      ⟨Pos.up, 0, 0, 0⟩).1 (Or.inl (by norm_num [getKey, c6pose])),
   (c6_low_confidence_skips c6pose 5 6 ⟨100, 200, 100, 100, 18⟩ 0
      ⟨Pos.up, 0, 0, 0⟩).2 (Or.inl (by norm_num [getKey, c6pose]))⟩

/-- C10: the two detection predicates are mutually exclusive on every
frame and against every baseline, because the averaged elbow angle
cannot be below 90 and above 160 at once. -/
theorem c10_hysteresis_exclusive (pose : Pose) (b : Baseline) :
    (downDetectedOf pose b ∧ upDetectedOf pose b) ↔ False := by
  rw [iff_false]
  rintro ⟨⟨h1, -, -⟩, h2, -⟩
  unfold DOWN_ANGLE_THRESHOLD at h1
  unfold UP_ANGLE_THRESHOLD at h2
  have e1 : ((90 : ℚ) : ℝ) = 90 := by norm_num
  have e2 : ((160 : ℚ) : ℝ) = 160 := by norm_num
  rw [e1] at h1
  rw [e2] at h2
  linarith

/-- The mutable globals touched by the control commands: the calibrated
baseline (script.js line 25), the running flag (line 18) and the
detection-session variables. -/
structure SystemState where
  baseline : Option Baseline
  running : Bool
  det : DetState

/-- The reset-count handler (script.js line 41): sets
STATE.detector.pushCount to 0; the UI refresh and the status message it
also performs are presentation only and touch no model state. -/
def resetCount (g : SystemState) : SystemState :=
  { g with det := { g.det with pushCount := 0 } }

/-- C9: reset zeroes the count from every state and changes nothing
else: baseline, running flag, position and both timestamps survive. -/
theorem c9_reset_only_count (g : SystemState) :
    (resetCount g).det.pushCount = 0 ∧
    (resetCount g).baseline = g.baseline ∧
    (resetCount g).running = g.running ∧
    (resetCount g).det.lastPosition = g.det.lastPosition ∧
    (resetCount g).det.lastRepTime = g.det.lastRepTime ∧
    (resetCount g).det.lastDownTime = g.det.lastDownTime :=
  ⟨rfl, rfl, rfl, rfl, rfl, rfl⟩

/-- The per-attempt shoulder width (script.js line 149): the absolute
x-distance of the shoulders, then the JavaScript or-default, which
replaces an exact zero (a falsy number) by 1 and keeps every other
value, including values strictly between 0 and 1. -/
def attemptWidth (p : Pose) : ℚ :=
  if |(getKey p 5).x - (getKey p 6).x| = 0 then 1
  else |(getKey p 5).x - (getKey p 6).x|

/-- One collected calibration sample (script.js line 150). -/
structure CalibSample where
  shoulderY : ℚ
  hipY : ℚ
  shoulderWidth : ℚ
deriving DecidableEq

/-- One calibration attempt (script.js lines 144-151): nothing without
a fetched pose; with one, the sample is pushed exactly when the
JavaScript conjunction of s, hip and the width test is truthy, which
demands both midpoints present AND nonzero (the number 0 is falsy) and
the width above 10. -/
def attemptSample (op : Option Pose) : Option CalibSample :=
  match op with
  | none => none
  | some p =>
    match getMidpointY p 5 6, getMidpointY p 11 12 with
    | some sy, some hy =>
        if sy ≠ 0 ∧ hy ≠ 0 ∧ attemptWidth p > 10 then
          some ⟨sy, hy, attemptWidth p⟩
        else none
    | _, _ => none

/-- calibrateBaseline (script.js lines 140-162) as a function of the
six fetched pose results: collect the accepted samples, fail when none
were accepted, otherwise average the three fields, derive bodyHeight as
the larger of 20 and the averaged trunk length, and the drop threshold
as 0.18 of it (the 0.18 is SHOULDER_DROP_RATIO, line 35). -/
def calibrateBaseline (fetches : List (Option Pose)) : Option Baseline :=
  let collected := fetches.filterMap attemptSample
  if collected.length = 0 then none
  else
    let n : ℚ := collected.length
    let avgShoulderY := (collected.map CalibSample.shoulderY).sum / n
    let avgHipY := (collected.map CalibSample.hipY).sum / n
    let avgShoulderW := (collected.map CalibSample.shoulderWidth).sum / n
    let bodyHeight := max 20 |avgHipY - avgShoulderY|
    some ⟨avgShoulderY, avgHipY, avgShoulderW, bodyHeight, bodyHeight * 0.18⟩

/-- Whether detection starts after the calibration step
(startCountdownAndRun, script.js lines 130-132): only on success. -/
def detectionStarts (fetches : List (Option Pose)) : Bool :=
  (calibrateBaseline fetches).isSome

/-- A pose with the shoulders 1/2 apart, for the C4 counterexample. -/
def c4wpose : Pose := fun i =>
  if i = 5 then ⟨0, 0, some 1⟩
  else if i = 6 then ⟨1 / 2, 0, some 1⟩
  else ⟨0, 0, some 1⟩

/-- A fully confident pose whose shoulder midpoint height is exactly 0,
for the C4 counterexample. -/
def c4zpose : Pose := fun i =>
  if i = 5 then ⟨0, 0, some 1⟩
  else if i = 6 then ⟨100, 0, some 1⟩
  else if i = 11 then ⟨0, 50, some 1⟩
  else if i = 12 then ⟨100, 50, some 1⟩
  else ⟨0, 0, some 1⟩

/-- A pose with coinciding shoulders, for the C4 witness. -/
def c4epose : Pose := fun _ => ⟨50, 50, some 1⟩

/-- A confident one-sample calibration pose, for the C7 witness. -/
def c7pose : Pose := fun i =>
  if i = 5 then ⟨0, 100, some 1⟩
  else if i = 6 then ⟨100, 100, some 1⟩
  else if i = 11 then ⟨0, 200, some 1⟩
  else if i = 12 then ⟨100, 200, some 1⟩
  else ⟨50, 150, some 1⟩

/-- C4 counterexample: with the shoulders 1/2 apart the recorded
per-attempt width is 1/2, not the floored-at-1 value 1; and a pose
whose shoulder midpoint is the valid height 0 (confidences 1, width
100) is rejected by the truthiness test even though both midpoints are
valid per the 0.35 rule and the width exceeds 10, contradicting the
claimed acceptance condition. -/
theorem c4_calibration_attempt_counterexample :
    attemptWidth c4wpose = 1 / 2 ∧
    max 1 |(getKey c4wpose 5).x - (getKey c4wpose 6).x| = 1 ∧
    attemptSample (some c4zpose) = none ∧
    getMidpointY c4zpose 5 6 = some 0 ∧
    getMidpointY c4zpose 11 12 = some 50 ∧
    attemptWidth c4zpose = 100 := by
  norm_num [attemptWidth, attemptSample, getMidpointY, getKey, c4wpose,
    c4zpose, abs_of_nonneg]

/-- C4 amended: the per-attempt width is the absolute shoulder
x-distance when that is nonzero and 1 when it is exactly zero; and the
sample is accepted exactly when both midpoints are valid per the 0.35
rule AND nonzero, and the width exceeds 10. -/
theorem c4_calibration_attempt (p : Pose) :
    (|(getKey p 5).x - (getKey p 6).x| ≠ 0 →
      attemptWidth p = |(getKey p 5).x - (getKey p 6).x|) ∧
    (|(getKey p 5).x - (getKey p 6).x| = 0 → attemptWidth p = 1) ∧
    ((attemptSample (some p)).isSome = true ↔
      (∃ sy, getMidpointY p 5 6 = some sy ∧ sy ≠ 0) ∧
      (∃ hy, getMidpointY p 11 12 = some hy ∧ hy ≠ 0) ∧
      attemptWidth p > 10) := by
  refine ⟨?_, ?_, ?_⟩
  · intro h
    unfold attemptWidth
    rw [if_neg h]
  · intro h
    unfold attemptWidth
    rw [if_pos h]
  · unfold attemptSample
    rcases hs : getMidpointY p 5 6 with _ | sy <;>
      rcases hh : getMidpointY p 11 12 with _ | hy <;>
        simp [hs, hh]

/-- Witness for C4 at concrete poses: shoulders 1/2 apart keep their
nonzero width; coinciding shoulders get width 1. -/
theorem c4_calibration_attempt_witness :
    attemptWidth c4wpose = |(getKey c4wpose 5).x - (getKey c4wpose 6).x| ∧
    attemptWidth c4epose = 1 :=
  ⟨(c4_calibration_attempt c4wpose).1 (by norm_num [getKey, c4wpose]),
   (c4_calibration_attempt c4epose).2.1 (by norm_num [getKey, c4epose])⟩

/-- C7: over the six calibration attempts, failure happens exactly when
no sample was accepted (and then detection does not start), and any
produced baseline carries the arithmetic means of the accepted samples,
with bodyHeight the larger of 20 and the averaged trunk length and the
drop threshold 0.18 of bodyHeight. -/
theorem c7_calibration_result (fetches : List (Option Pose))
    (hlen : fetches.length = 6) :
    (calibrateBaseline fetches = none ↔
      fetches.filterMap attemptSample = []) ∧
    (calibrateBaseline fetches = none → detectionStarts fetches = false) ∧
    (∀ b, calibrateBaseline fetches = some b →
      b.shoulderY = ((fetches.filterMap attemptSample).map
          CalibSample.shoulderY).sum /
          ((fetches.filterMap attemptSample).length : ℚ) ∧
      b.hipY = ((fetches.filterMap attemptSample).map CalibSample.hipY).sum /
          ((fetches.filterMap attemptSample).length : ℚ) ∧
      b.shoulderWidth = ((fetches.filterMap attemptSample).map
          CalibSample.shoulderWidth).sum /
          ((fetches.filterMap attemptSample).length : ℚ) ∧
      b.bodyHeight = max 20 |b.hipY - b.shoulderY| ∧
      b.shoulderDropThreshold = b.bodyHeight * 0.18) := by
  refine ⟨?_, ?_, ?_⟩
  · unfold calibrateBaseline
    dsimp only
    split_ifs with h
    · simp only [List.length_eq_zero] at h
      simp [h]
    · constructor
      · intro hc
        exact absurd hc (by simp)
      · intro he
        rw [he] at h
        simp at h
  · intro h
    unfold detectionStarts
    rw [h]
    rfl
  · intro b hb
    unfold calibrateBaseline at hb
    dsimp only at hb
    split_ifs at hb with h
    rw [Option.some_inj] at hb
    subst hb
    exact ⟨rfl, rfl, rfl, rfl, rfl⟩

/-- Witness for C7: six empty fetches give failure and no detection
start; a single confident sample (shoulders at height 100, hips at 200,
width 100) gives a baseline whose shoulderY is the one-sample mean. -/
theorem c7_calibration_result_witness :
    (calibrateBaseline (List.replicate 6 none) = none ↔
      (List.replicate 6 none).filterMap attemptSample = []) ∧
    detectionStarts (List.replicate 6 none) = false ∧
    (⟨100, 200, 100, 100, 18⟩ : Baseline).shoulderY =
      (([some c7pose, none, none, none, none, none].filterMap
          attemptSample).map CalibSample.shoulderY).sum /
        (([some c7pose, none, none, none, none, none].filterMap
          attemptSample).length : ℚ) :=
  ⟨(c7_calibration_result (List.replicate 6 none) rfl).1,
   (c7_calibration_result (List.replicate 6 none) rfl).2.1 rfl,
   ((c7_calibration_result [some c7pose, none, none, none, none, none]
      rfl).2.2 ⟨100, 200, 100, 100, 18⟩
      (by norm_num [calibrateBaseline, attemptSample, attemptWidth,
        getMidpointY, getKey, c7pose, List.filterMap_cons])).1⟩
